import Mathlib

/-!
Verification of the off-chain indexing storage layer of
`fuel-core` (`crates/fuel-core/src/graphql_api/storage.rs`):
the `Column` catalog, the `OffChainDatabaseTransaction` operations
(`record_tx_id_owner`, `update_tx_status`, `increase_tx_count`,
`get_tx_count`, `commit`) and the transactional overlay they run on.

The overlay primitives (`StorageTransaction` get/insert/replace/commit)
come from the external `fuel_core_storage` crate; they are modelled from
the spec (a write buffer layered on a base store, flushed by one atomic
batch apply).  The functions of `storage.rs` itself are translated
directly from the source.
-/

set_option maxHeartbeats 1000000
set_option maxRecDepth 8000

namespace FuelGraphQLStorage

/-- 32-byte account address (`fuel_core_types::fuel_tx::Address`),
modelled abstractly as a natural number. -/
abbrev Address := Nat

/-- 32-byte hash / transaction id (`fuel_core_types::fuel_tx::Bytes32`),
modelled abstractly as a natural number. -/
abbrev Bytes32 := Nat

/-- Block height (`fuel_core_types::fuel_types::BlockHeight`, a `u32`),
modelled abstractly as a natural number. -/
abbrev BlockHeight := Nat

/-- Maximum value of a `u64` (`u64::MAX`). -/
def U64MAX : Nat := 18446744073709551615

/-- Execution status of a transaction
(`fuel_core_types::services::txpool::TransactionExecutionStatus`):
success / failure / squeezed-out variant with associated data. -/
inductive TransactionExecutionStatus where
  | success (data : Nat)
  | failure (data : Nat)
  | squeezedOut (data : Nat)
  deriving DecidableEq, Repr

/-- Key of the owned-transaction index
(`transactions::OwnedTransactionIndexKey::new(owner, block_height, tx_idx)`). -/
structure OwnedTransactionIndexKey where
  owner : Address
  block_height : BlockHeight
  tx_idx : Nat
  deriving DecidableEq, Repr

/-- A storage-layer failure (`fuel_core_storage::Error`): the underlying
key-value engine could not read, write, or commit. -/
inductive StorageError where
  | storeFailure
  deriving DecidableEq, Repr

/-- `StorageResult<T>` from `fuel_core_storage`. -/
abbrev StorageResult (α : Type) := Except StorageError α

/-- First-match lookup in an association list (newest entry first). -/
def lookupA {α β : Type} [DecidableEq α] : List (α × β) → α → Option β
  | [], _ => none
  | p :: rest, k => if p.1 = k then some p.2 else lookupA rest k

/-- The base key-value store, restricted to the three tables touched by
the operations of `storage.rs`: the owned-transaction index
(`Column::TransactionsByOwnerBlockIdx`), the status table
(`Column::TransactionStatus`) and the statistic table
(`Column::Statistic`).  Each table is an association list whose
newest entry shadows older ones. -/
structure Store where
  owned : List (OwnedTransactionIndexKey × Bytes32)
  status : List (Bytes32 × TransactionExecutionStatus)
  statistic : List (String × Nat)
  deriving DecidableEq, Repr

/-- Direct read of the owned-transaction index in the base store. -/
def Store.getOwned (s : Store) (k : OwnedTransactionIndexKey) : Option Bytes32 :=
  lookupA s.owned k

/-- Direct read of the status table in the base store. -/
def Store.getStatus (s : Store) (id : Bytes32) : Option TransactionExecutionStatus :=
  lookupA s.status id

/-- Direct read of the statistic table in the base store. -/
def Store.getStatistic (s : Store) (key : String) : Option Nat :=
  lookupA s.statistic key

/-- Modelled from the spec: `fuel_core_storage::transactional::StorageTransaction`,
absent from the sources.  A transaction overlay is a write buffer (one
buffer per table, newest staged write first) layered over a borrowed
base store; the base store is never mutated until commit. -/
structure StorageTransaction where
  base : Store
  writesOwned : List (OwnedTransactionIndexKey × Bytes32)
  writesStatus : List (Bytes32 × TransactionExecutionStatus)
  writesStatistic : List (String × Nat)
  deriving DecidableEq, Repr

/-- Modelled from the spec: overlay `get` on the owned-transaction index.
Returns the value visible to this transaction — a pending write in this
transaction if one exists, else the value committed in the base store. -/
def StorageTransaction.getOwned (tx : StorageTransaction)
    (k : OwnedTransactionIndexKey) : Option Bytes32 :=
  match lookupA tx.writesOwned k with
  | some v => some v
  | none => tx.base.getOwned k

/-- Modelled from the spec: overlay `get` on the status table. -/
def StorageTransaction.getStatus (tx : StorageTransaction)
    (id : Bytes32) : Option TransactionExecutionStatus :=
  match lookupA tx.writesStatus id with
  | some v => some v
  | none => tx.base.getStatus id

/-- Modelled from the spec: overlay `get` on the statistic table. -/
def StorageTransaction.getStatistic (tx : StorageTransaction)
    (key : String) : Option Nat :=
  match lookupA tx.writesStatistic key with
  | some v => some v
  | none => tx.base.getStatistic key

/-- Modelled from the spec: overlay `insert` on the owned-transaction
index.  Stages a write, unconditionally overwriting any existing value
for that key within this transaction's view.  Staging is an in-memory
buffer update and the encoding of these typed keys and values is total,
so the only possible failure — an underlying storage error — cannot
arise here; the operation never fails because the key already exists. -/
def StorageTransaction.insertOwned (tx : StorageTransaction)
    (k : OwnedTransactionIndexKey) (v : Bytes32) :
    StorageResult (Unit × StorageTransaction) :=
  .ok ((), { tx with writesOwned := (k, v) :: tx.writesOwned })

/-- Modelled from the spec: overlay `insert` on the statistic table. -/
def StorageTransaction.insertStatistic (tx : StorageTransaction)
    (key : String) (v : Nat) : StorageResult (Unit × StorageTransaction) :=
  .ok ((), { tx with writesStatistic := (key, v) :: tx.writesStatistic })

/-- Modelled from the spec: overlay `replace` on the status table.
Same as insert but also returns the prior value — from this
transaction's view if already staged, else from the base store. -/
def StorageTransaction.replaceStatus (tx : StorageTransaction)
    (id : Bytes32) (v : TransactionExecutionStatus) :
    StorageResult (Option TransactionExecutionStatus × StorageTransaction) :=
  .ok (tx.getStatus id,
    { tx with writesStatus := (id, v) :: tx.writesStatus })

/-- Modelled from the spec: overlay `commit`, absent from the sources.
Flushes the write buffer to the base store through one atomic batch
apply.  `inj` injects a base-store failure (the spec's "commit is made
to fail, e.g., by injecting a store failure").  Returns the base store
after the commit attempt together with the reported error, if any:
on failure the atomic batch is not applied at all, so the base store
is returned exactly as it was before the attempt. -/
def StorageTransaction.commit (tx : StorageTransaction) (inj : Bool) :
    Store × Option StorageError :=
  if inj then
    (tx.base, some .storeFailure)
  else
    ({ owned := tx.writesOwned ++ tx.base.owned,
       status := tx.writesStatus ++ tx.base.status,
       statistic := tx.writesStatistic ++ tx.base.statistic }, none)

/-- `const TX_COUNT: &str = "total_tx_count";` — the statistic key that
tracks the total number of transactions written to the chain. -/
def TX_COUNT : String := "total_tx_count"

/-- The counter value visible to a transaction: the stored value of the
`TX_COUNT` statistic, defaulting to zero if absent
(`.get(TX_COUNT)?.unwrap_or_default()`). -/
def StorageTransaction.txCountView (tx : StorageTransaction) : Nat :=
  (tx.getStatistic TX_COUNT).getD 0

/-- `fn get_tx_count(&self) -> StorageResult<u64>` of `storage.rs`:
reads the `TX_COUNT` statistic through the overlay, defaulting to zero
when absent.  Takes `&self`, so the transaction state is returned
unchanged. -/
def StorageTransaction.get_tx_count (tx : StorageTransaction) :
    StorageResult (Nat × StorageTransaction) :=
  .ok (tx.txCountView, tx)

/-- `fn record_tx_id_owner(&mut self, owner, block_height, tx_idx, tx_id)`
of `storage.rs`: stages an insert into the owned-transaction index
keyed by `OwnedTransactionIndexKey::new(owner, block_height, tx_idx)`. -/
def StorageTransaction.record_tx_id_owner (tx : StorageTransaction)
    (owner : Address) (block_height : BlockHeight) (tx_idx : Nat)
    (tx_id : Bytes32) : StorageResult (Unit × StorageTransaction) :=
  tx.insertOwned (OwnedTransactionIndexKey.mk owner block_height tx_idx) tx_id

/-- `fn update_tx_status(&mut self, id, status)` of `storage.rs`:
stages a replace into the status table and returns the prior status. -/
def StorageTransaction.update_tx_status (tx : StorageTransaction)
    (id : Bytes32) (status : TransactionExecutionStatus) :
    StorageResult (Option TransactionExecutionStatus × StorageTransaction) :=
  tx.replaceStatus id status

/-- `fn increase_tx_count(&mut self, new_txs_count: u64)` of `storage.rs`:
reads the current counter through `get_tx_count`, adds the delta with
`u64::saturating_add` (clamping at `u64::MAX` instead of wrapping),
stages the new total into the statistic table and returns it. -/
def StorageTransaction.increase_tx_count (tx : StorageTransaction)
    (new_txs_count : Nat) : StorageResult (Nat × StorageTransaction) := do
  let (current_tx_count, tx₁) ← tx.get_tx_count
  let new_tx_count := min (current_tx_count + new_txs_count) U64MAX
  let ((), tx₂) ← tx₁.insertStatistic TX_COUNT new_tx_count
  pure (new_tx_count, tx₂)

/-- `pub enum Column` of `storage.rs`: GraphQL database table column ids.
All 51 variants are listed; the ones guarded in the source by
`#[cfg(feature = "fault-proving")]` are marked by `Column.faultProvingOnly`. -/
inductive Column where
  | Metadata
  | GenesisMetadata
  | OwnedCoins
  | TransactionStatus
  | TransactionsByOwnerBlockIdx
  | OwnedMessageIds
  | Statistic
  | FuelBlockIdsToHeights
  | ContractsInfo
  | OldFuelBlocks
  | OldFuelBlockConsensus
  | OldTransactions
  | RelayedTransactionStatus
  | SpentMessages
  | DaCompressedBlocks
  | DaCompressionTemporalRegistryIndex
  | DaCompressionTemporalRegistryTimestamps
  | DaCompressionTemporalRegistryEvictorCache
  | DaCompressionTemporalRegistryAddress
  | DaCompressionTemporalRegistryAssetId
  | DaCompressionTemporalRegistryContractId
  | DaCompressionTemporalRegistryScriptCode
  | DaCompressionTemporalRegistryPredicateCode
  | CoinBalances
  | MessageBalances
  | AssetsInfo
  | CoinsToSpend
  | DaCompressionTemporalRegistryAddressV2
  | DaCompressionTemporalAddressMerkleData
  | DaCompressionTemporalAddressMerkleMetadata
  | DaCompressionTemporalRegistryAssetIdV2
  | DaCompressionTemporalAssetIdMerkleData
  | DaCompressionTemporalAssetIdMerkleMetadata
  | DaCompressionTemporalRegistryContractIdV2
  | DaCompressionTemporalContractIdMerkleData
  | DaCompressionTemporalContractIdMerkleMetadata
  | DaCompressionTemporalRegistryScriptCodeV2
  | DaCompressionTemporalScriptCodeMerkleData
  | DaCompressionTemporalScriptCodeMerkleMetadata
  | DaCompressionTemporalRegistryPredicateCodeV2
  | DaCompressionTemporalPredicateCodeMerkleData
  | DaCompressionTemporalPredicateCodeMerkleMetadata
  | DaCompressionTemporalRegistryIndexV2
  | DaCompressionTemporalRegistryIndexMerkleData
  | DaCompressionTemporalRegistryIndexMerkleMetadata
  | DaCompressionTemporalRegistryTimestampsV2
  | DaCompressionTemporalRegistryTimestampsMerkleData
  | DaCompressionTemporalRegistryTimestampsMerkleMetadata
  | DaCompressionTemporalRegistryEvictorCacheV2
  | DaCompressionTemporalRegistryEvictorCacheMerkleData
  | DaCompressionTemporalRegistryEvictorCacheMerkleMetadata
  deriving DecidableEq, Repr, Fintype

/-- The `u32` discriminant of each variant (the `= n` values in the
source; `fn id(&self) -> u32` returns `*self as u32`). -/
def Column.id : Column → Nat
  | .Metadata => 0
  | .GenesisMetadata => 1
  | .OwnedCoins => 2
  | .TransactionStatus => 3
  | .TransactionsByOwnerBlockIdx => 4
  | .OwnedMessageIds => 5
  | .Statistic => 6
  | .FuelBlockIdsToHeights => 7
  | .ContractsInfo => 8
  | .OldFuelBlocks => 9
  | .OldFuelBlockConsensus => 10
  | .OldTransactions => 11
  | .RelayedTransactionStatus => 12
  | .SpentMessages => 13
  | .DaCompressedBlocks => 14
  | .DaCompressionTemporalRegistryIndex => 15
  | .DaCompressionTemporalRegistryTimestamps => 16
  | .DaCompressionTemporalRegistryEvictorCache => 17
  | .DaCompressionTemporalRegistryAddress => 18
  | .DaCompressionTemporalRegistryAssetId => 19
  | .DaCompressionTemporalRegistryContractId => 20
  | .DaCompressionTemporalRegistryScriptCode => 21
  | .DaCompressionTemporalRegistryPredicateCode => 22
  | .CoinBalances => 23
  | .MessageBalances => 24
  | .AssetsInfo => 25
  | .CoinsToSpend => 26
  | .DaCompressionTemporalRegistryAddressV2 => 27
  | .DaCompressionTemporalAddressMerkleData => 28
  | .DaCompressionTemporalAddressMerkleMetadata => 29
  | .DaCompressionTemporalRegistryAssetIdV2 => 30
  | .DaCompressionTemporalAssetIdMerkleData => 31
  | .DaCompressionTemporalAssetIdMerkleMetadata => 32
  | .DaCompressionTemporalRegistryContractIdV2 => 33
  | .DaCompressionTemporalContractIdMerkleData => 34
  | .DaCompressionTemporalContractIdMerkleMetadata => 35
  | .DaCompressionTemporalRegistryScriptCodeV2 => 36
  | .DaCompressionTemporalScriptCodeMerkleData => 37
  | .DaCompressionTemporalScriptCodeMerkleMetadata => 38
  | .DaCompressionTemporalRegistryPredicateCodeV2 => 39
  | .DaCompressionTemporalPredicateCodeMerkleData => 40
  | .DaCompressionTemporalPredicateCodeMerkleMetadata => 41
  | .DaCompressionTemporalRegistryIndexV2 => 42
  | .DaCompressionTemporalRegistryIndexMerkleData => 43
  | .DaCompressionTemporalRegistryIndexMerkleMetadata => 44
  | .DaCompressionTemporalRegistryTimestampsV2 => 45
  | .DaCompressionTemporalRegistryTimestampsMerkleData => 46
  | .DaCompressionTemporalRegistryTimestampsMerkleMetadata => 47
  | .DaCompressionTemporalRegistryEvictorCacheV2 => 48
  | .DaCompressionTemporalRegistryEvictorCacheMerkleData => 49
  | .DaCompressionTemporalRegistryEvictorCacheMerkleMetadata => 50

/-- The name of each variant (`strum_macros::IntoStaticStr` yields the
variant's identifier; `fn name(&self) -> String` converts it). -/
def Column.name : Column → String
  | .Metadata => "Metadata"
  | .GenesisMetadata => "GenesisMetadata"
  | .OwnedCoins => "OwnedCoins"
  | .TransactionStatus => "TransactionStatus"
  | .TransactionsByOwnerBlockIdx => "TransactionsByOwnerBlockIdx"
  | .OwnedMessageIds => "OwnedMessageIds"
  | .Statistic => "Statistic"
  | .FuelBlockIdsToHeights => "FuelBlockIdsToHeights"
  | .ContractsInfo => "ContractsInfo"
  | .OldFuelBlocks => "OldFuelBlocks"
  | .OldFuelBlockConsensus => "OldFuelBlockConsensus"
  | .OldTransactions => "OldTransactions"
  | .RelayedTransactionStatus => "RelayedTransactionStatus"
  | .SpentMessages => "SpentMessages"
  | .DaCompressedBlocks => "DaCompressedBlocks"
  | .DaCompressionTemporalRegistryIndex => "DaCompressionTemporalRegistryIndex"
  | .DaCompressionTemporalRegistryTimestamps => "DaCompressionTemporalRegistryTimestamps"
  | .DaCompressionTemporalRegistryEvictorCache => "DaCompressionTemporalRegistryEvictorCache"
  | .DaCompressionTemporalRegistryAddress => "DaCompressionTemporalRegistryAddress"
  | .DaCompressionTemporalRegistryAssetId => "DaCompressionTemporalRegistryAssetId"
  | .DaCompressionTemporalRegistryContractId => "DaCompressionTemporalRegistryContractId"
  | .DaCompressionTemporalRegistryScriptCode => "DaCompressionTemporalRegistryScriptCode"
  | .DaCompressionTemporalRegistryPredicateCode => "DaCompressionTemporalRegistryPredicateCode"
  | .CoinBalances => "CoinBalances"
  | .MessageBalances => "MessageBalances"
  | .AssetsInfo => "AssetsInfo"
  | .CoinsToSpend => "CoinsToSpend"
  | .DaCompressionTemporalRegistryAddressV2 => "DaCompressionTemporalRegistryAddressV2"
  | .DaCompressionTemporalAddressMerkleData => "DaCompressionTemporalAddressMerkleData"
  | .DaCompressionTemporalAddressMerkleMetadata => "DaCompressionTemporalAddressMerkleMetadata"
  | .DaCompressionTemporalRegistryAssetIdV2 => "DaCompressionTemporalRegistryAssetIdV2"
  | .DaCompressionTemporalAssetIdMerkleData => "DaCompressionTemporalAssetIdMerkleData"
  | .DaCompressionTemporalAssetIdMerkleMetadata => "DaCompressionTemporalAssetIdMerkleMetadata"
  | .DaCompressionTemporalRegistryContractIdV2 => "DaCompressionTemporalRegistryContractIdV2"
  | .DaCompressionTemporalContractIdMerkleData => "DaCompressionTemporalContractIdMerkleData"
  | .DaCompressionTemporalContractIdMerkleMetadata => "DaCompressionTemporalContractIdMerkleMetadata"
  | .DaCompressionTemporalRegistryScriptCodeV2 => "DaCompressionTemporalRegistryScriptCodeV2"
  | .DaCompressionTemporalScriptCodeMerkleData => "DaCompressionTemporalScriptCodeMerkleData"
  | .DaCompressionTemporalScriptCodeMerkleMetadata => "DaCompressionTemporalScriptCodeMerkleMetadata"
  | .DaCompressionTemporalRegistryPredicateCodeV2 => "DaCompressionTemporalRegistryPredicateCodeV2"
  | .DaCompressionTemporalPredicateCodeMerkleData => "DaCompressionTemporalPredicateCodeMerkleData"
  | .DaCompressionTemporalPredicateCodeMerkleMetadata => "DaCompressionTemporalPredicateCodeMerkleMetadata"
  | .DaCompressionTemporalRegistryIndexV2 => "DaCompressionTemporalRegistryIndexV2"
  | .DaCompressionTemporalRegistryIndexMerkleData => "DaCompressionTemporalRegistryIndexMerkleData"
  | .DaCompressionTemporalRegistryIndexMerkleMetadata => "DaCompressionTemporalRegistryIndexMerkleMetadata"
  | .DaCompressionTemporalRegistryTimestampsV2 => "DaCompressionTemporalRegistryTimestampsV2"
  | .DaCompressionTemporalRegistryTimestampsMerkleData => "DaCompressionTemporalRegistryTimestampsMerkleData"
  | .DaCompressionTemporalRegistryTimestampsMerkleMetadata => "DaCompressionTemporalRegistryTimestampsMerkleMetadata"
  | .DaCompressionTemporalRegistryEvictorCacheV2 => "DaCompressionTemporalRegistryEvictorCacheV2"
  | .DaCompressionTemporalRegistryEvictorCacheMerkleData => "DaCompressionTemporalRegistryEvictorCacheMerkleData"
  | .DaCompressionTemporalRegistryEvictorCacheMerkleMetadata => "DaCompressionTemporalRegistryEvictorCacheMerkleMetadata"

/-- Whether a variant is guarded by `#[cfg(feature = "fault-proving")]`
in the source: exactly the variants with discriminants 27 through 50. -/
def Column.faultProvingOnly (c : Column) : Bool :=
  27 ≤ c.id

/-- Enumeration of all variants in declaration order
(`enum_iterator::Sequence`). -/
def allColumns : List Column :=
  [.Metadata, .GenesisMetadata, .OwnedCoins, .TransactionStatus,
   .TransactionsByOwnerBlockIdx, .OwnedMessageIds, .Statistic,
   .FuelBlockIdsToHeights, .ContractsInfo, .OldFuelBlocks,
   .OldFuelBlockConsensus, .OldTransactions, .RelayedTransactionStatus,
   .SpentMessages, .DaCompressedBlocks, .DaCompressionTemporalRegistryIndex,
   .DaCompressionTemporalRegistryTimestamps,
   .DaCompressionTemporalRegistryEvictorCache,
   .DaCompressionTemporalRegistryAddress,
   .DaCompressionTemporalRegistryAssetId,
   .DaCompressionTemporalRegistryContractId,
   .DaCompressionTemporalRegistryScriptCode,
   .DaCompressionTemporalRegistryPredicateCode,
   .CoinBalances, .MessageBalances, .AssetsInfo, .CoinsToSpend,
   .DaCompressionTemporalRegistryAddressV2,
   .DaCompressionTemporalAddressMerkleData,
   .DaCompressionTemporalAddressMerkleMetadata,
   .DaCompressionTemporalRegistryAssetIdV2,
   .DaCompressionTemporalAssetIdMerkleData,
   .DaCompressionTemporalAssetIdMerkleMetadata,
   .DaCompressionTemporalRegistryContractIdV2,
   .DaCompressionTemporalContractIdMerkleData,
   .DaCompressionTemporalContractIdMerkleMetadata,
   .DaCompressionTemporalRegistryScriptCodeV2,
   .DaCompressionTemporalScriptCodeMerkleData,
   .DaCompressionTemporalScriptCodeMerkleMetadata,
   .DaCompressionTemporalRegistryPredicateCodeV2,
   .DaCompressionTemporalPredicateCodeMerkleData,
   .DaCompressionTemporalPredicateCodeMerkleMetadata,
   .DaCompressionTemporalRegistryIndexV2,
   .DaCompressionTemporalRegistryIndexMerkleData,
   .DaCompressionTemporalRegistryIndexMerkleMetadata,
   .DaCompressionTemporalRegistryTimestampsV2,
   .DaCompressionTemporalRegistryTimestampsMerkleData,
   .DaCompressionTemporalRegistryTimestampsMerkleMetadata,
   .DaCompressionTemporalRegistryEvictorCacheV2,
   .DaCompressionTemporalRegistryEvictorCacheMerkleData,
   .DaCompressionTemporalRegistryEvictorCacheMerkleMetadata]

/-- The variants compiled into a build: all of them when the
`fault-proving` feature is on, only the unconditional ones otherwise. -/
def compiledColumns (faultProving : Bool) : List Column :=
  allColumns.filter (fun c => faultProving || !c.faultProvingOnly)

/-- `Column::COUNT` (`strum_macros::EnumCount`): the number of variants
compiled into the build. -/
def Column.COUNT (faultProving : Bool) : Nat :=
  (compiledColumns faultProving).length

/-! ## Helper lemmas -/

theorem lookupA_append {α β : Type} [DecidableEq α] (xs ys : List (α × β)) (k : α) :
    lookupA (xs ++ ys) k =
      match lookupA xs k with
      | some v => some v
      | none => lookupA ys k := by
  induction xs with
  | nil => rfl
  | cons p rest ih =>
    by_cases h : p.1 = k <;> simp [lookupA, h, ih]

/-- Unfolding `increase_tx_count`: the returned and staged total is the
saturating sum of the visible counter and the delta. -/
theorem increase_tx_count_eq (tx : StorageTransaction) (d : Nat) :
    tx.increase_tx_count d =
      .ok (min (tx.txCountView + d) U64MAX,
        { tx with writesStatistic :=
            (TX_COUNT, min (tx.txCountView + d) U64MAX) ::
              tx.writesStatistic }) := rfl

/-- A counter value staged on top of the statistic write buffer is the
one the overlay sees. -/
theorem txCountView_stage (b : Store)
    (wo : List (OwnedTransactionIndexKey × Bytes32))
    (ws : List (Bytes32 × TransactionExecutionStatus))
    (wst : List (String × Nat)) (n : Nat) :
    (StorageTransaction.mk b wo ws ((TX_COUNT, n) :: wst)).txCountView = n := by
  simp [StorageTransaction.txCountView, StorageTransaction.getStatistic, lookupA]

/-- A concrete overlay over an empty base store, used to instantiate
theorems with hypotheses. -/
def txEmpty : StorageTransaction := ⟨⟨[], [], []⟩, [], [], []⟩

/-- A concrete overlay with one staged write in each table, over a base
store holding a counter value of 7. -/
def txSample : StorageTransaction :=
  ⟨⟨[], [], [("total_tx_count", 7)]⟩,
   [(⟨1, 2, 3⟩, 4)], [(5, .success 6)], [("total_tx_count", 9)]⟩

/-! ## Claims -/

/-- C1: commit is all-or-nothing.  If commit succeeds, the base store
afterward shows, on every key of every table, exactly the value the
overlay saw — in particular every staged write is applied and visible
to subsequent reads; if commit fails, the base store is exactly the
state it had before the commit attempt. -/
theorem commit_atomicity (tx : StorageTransaction) (inj : Bool) :
    ((tx.commit inj).2 = none →
      (∀ k, ((tx.commit inj).1).getOwned k = tx.getOwned k) ∧
      (∀ id, ((tx.commit inj).1).getStatus id = tx.getStatus id) ∧
      (∀ key, ((tx.commit inj).1).getStatistic key = tx.getStatistic key)) ∧
    ((tx.commit inj).2 ≠ none → (tx.commit inj).1 = tx.base) := by
  cases inj with
  | false =>
    have hc : (tx.commit false).1 =
        ⟨tx.writesOwned ++ tx.base.owned,
         tx.writesStatus ++ tx.base.status,
         tx.writesStatistic ++ tx.base.statistic⟩ := rfl
    refine ⟨fun _ => ⟨fun k => ?_, fun id => ?_, fun key => ?_⟩,
      fun h => absurd rfl h⟩
    · rw [hc]
      show lookupA (tx.writesOwned ++ tx.base.owned) k = tx.getOwned k
      rw [lookupA_append]
      cases h : lookupA tx.writesOwned k <;>
        simp [StorageTransaction.getOwned, Store.getOwned, h]
    · rw [hc]
      show lookupA (tx.writesStatus ++ tx.base.status) id = tx.getStatus id
      rw [lookupA_append]
      cases h : lookupA tx.writesStatus id <;>
        simp [StorageTransaction.getStatus, Store.getStatus, h]
    · rw [hc]
      show lookupA (tx.writesStatistic ++ tx.base.statistic) key =
        tx.getStatistic key
      rw [lookupA_append]
      cases h : lookupA tx.writesStatistic key <;>
        simp [StorageTransaction.getStatistic, Store.getStatistic, h]
  | true =>
    exact ⟨fun h => by simp [StorageTransaction.commit] at h, fun _ => rfl⟩

/-- C1 witness: on the sample overlay, an injected failure leaves the
base store untouched, and a successful commit makes the staged counter
write visible to a direct read of the base store. -/
theorem commit_atomicity_witness :
    (txSample.commit true).1 = txSample.base ∧
      (txSample.commit false).1.getStatistic TX_COUNT =
        txSample.getStatistic TX_COUNT :=
  ⟨(commit_atomicity txSample true).2 (by simp [StorageTransaction.commit]),
   ((commit_atomicity txSample false).1 rfl).2.2 TX_COUNT⟩

/-- C2: `increase_tx_count(d)` on an overlay whose visible count is `T`
returns `min (T + d) u64::MAX` — exact arithmetic, clamping instead of
wrapping — stages that value as the new stored count, and never returns
or stores a value lower than `T`. -/
theorem increase_tx_count_saturates (tx : StorageTransaction) (d : Nat)
    (hT : tx.txCountView ≤ U64MAX) (_hd : d ≤ U64MAX) :
    ∃ tx', tx.increase_tx_count d =
        .ok (min (tx.txCountView + d) U64MAX, tx') ∧
      tx'.writesStatistic =
        (TX_COUNT, min (tx.txCountView + d) U64MAX) ::
          tx.writesStatistic ∧
      tx'.txCountView = min (tx.txCountView + d) U64MAX ∧
      tx.txCountView ≤ min (tx.txCountView + d) U64MAX := by
  refine ⟨_, increase_tx_count_eq tx d, rfl, txCountView_stage _ _ _ _ _, ?_⟩
  rw [min_def]
  split <;> omega

/-- C2 witness: on the sample overlay (visible count 9), a delta of 5
yields 14, staged and no lower than 9. -/
theorem increase_tx_count_saturates_witness :
    txSample.txCountView ≤ U64MAX ∧ 5 ≤ U64MAX ∧
      ∃ tx', txSample.increase_tx_count 5 =
          .ok (min (txSample.txCountView + 5) U64MAX, tx') ∧
        tx'.writesStatistic =
          (TX_COUNT, min (txSample.txCountView + 5) U64MAX) ::
            txSample.writesStatistic ∧
        tx'.txCountView = min (txSample.txCountView + 5) U64MAX ∧
        txSample.txCountView ≤ min (txSample.txCountView + 5) U64MAX :=
  ⟨by decide, by decide,
   increase_tx_count_saturates txSample 5 (by decide) (by decide)⟩

/-- C3: read-your-writes on the counter.  If `increase_tx_count(d)`
succeeds and returns `n`, a subsequent `get_tx_count()` on the same
overlay succeeds and returns the same `n`. -/
theorem get_tx_count_reads_staged_increase (tx : StorageTransaction)
    (d n : Nat) (tx' : StorageTransaction)
    (h : tx.increase_tx_count d = .ok (n, tx')) :
    tx'.get_tx_count = .ok (n, tx') := by
  rw [increase_tx_count_eq] at h
  rw [show (Except.ok (ε := StorageError)
      (min (tx.txCountView + d) U64MAX,
        { tx with writesStatistic :=
            (TX_COUNT, min (tx.txCountView + d) U64MAX) ::
              tx.writesStatistic }) = .ok (n, tx')) =
    (min (tx.txCountView + d) U64MAX = n ∧
      { tx with writesStatistic :=
          (TX_COUNT, min (tx.txCountView + d) U64MAX) ::
            tx.writesStatistic } = tx') from by
      simp [Except.ok.injEq, Prod.mk.injEq]] at h
  obtain ⟨hn, htx⟩ := h
  subst htx
  rw [StorageTransaction.get_tx_count, txCountView_stage, hn]

/-- C3 witness: on the sample overlay, incrementing by 5 returns 14 and
reading the counter afterward returns 14 again. -/
theorem get_tx_count_reads_staged_increase_witness :
    txSample.increase_tx_count 5 =
        .ok (14, { txSample with writesStatistic :=
          (TX_COUNT, 14) :: txSample.writesStatistic }) ∧
      ({ txSample with writesStatistic :=
          (TX_COUNT, 14) :: txSample.writesStatistic } :
        StorageTransaction).get_tx_count =
        .ok (14, { txSample with writesStatistic :=
          (TX_COUNT, 14) :: txSample.writesStatistic }) :=
  ⟨rfl, get_tx_count_reads_staged_increase txSample 5 14 _ rfl⟩

/-- C4: `update_tx_status(tx_id, status)` stages the status into the
status table and returns exactly the status previously visible to this
overlay (staged earlier in the same overlay, else committed in the base
store) — `none` when the id had no recorded status.  In particular two
updates in a row on the same id return the first status the second
time, and an update on a fresh id returns `none`. -/
theorem update_tx_status_replace (tx : StorageTransaction) (id : Bytes32)
    (s₁ s₂ : TransactionExecutionStatus) :
    (∀ r tx', tx.update_tx_status id s₁ = .ok (r, tx') →
      r = tx.getStatus id ∧
      tx'.writesStatus = (id, s₁) :: tx.writesStatus ∧
      tx'.getStatus id = some s₁) ∧
    (∀ r₁ tx₁, tx.update_tx_status id s₁ = .ok (r₁, tx₁) →
      ∃ tx₂, tx₁.update_tx_status id s₂ = .ok (some s₁, tx₂)) ∧
    (tx.getStatus id = none →
      ∃ tx', tx.update_tx_status id s₁ = .ok (none, tx')) := by
  have hstep : ∀ (t : StorageTransaction) (s : TransactionExecutionStatus),
      t.update_tx_status id s =
        .ok (t.getStatus id,
          { t with writesStatus := (id, s) :: t.writesStatus }) :=
    fun _ _ => rfl
  have hview : ∀ (t : StorageTransaction) (s : TransactionExecutionStatus),
      ({ t with writesStatus := (id, s) :: t.writesStatus } :
        StorageTransaction).getStatus id = some s := by
    intro t s
    simp [StorageTransaction.getStatus, lookupA]
  refine ⟨fun r tx' h => ?_, fun r₁ tx₁ h => ?_, fun h => ?_⟩
  · rw [hstep] at h
    simp only [Except.ok.injEq, Prod.mk.injEq] at h
    obtain ⟨hr, htx⟩ := h
    subst htx
    exact ⟨hr.symm, rfl, hview tx s₁⟩
  · rw [hstep] at h
    simp only [Except.ok.injEq, Prod.mk.injEq] at h
    obtain ⟨_, htx⟩ := h
    subst htx
    refine ⟨{ tx with writesStatus := (id, s₂) :: (id, s₁) :: tx.writesStatus }, ?_⟩
    rw [hstep, hview]
  · refine ⟨{ tx with writesStatus := (id, s₁) :: tx.writesStatus }, ?_⟩
    rw [hstep, h]

/-- C4 witness: on the sample overlay, updating the status of fresh id 8
returns `none`, a second update on id 8 returns the first status, and
updating id 5 (already staged) returns its staged status. -/
theorem update_tx_status_replace_witness :
    (∃ tx', txSample.update_tx_status 8 (.failure 0) = .ok (none, tx')) ∧
      (∃ tx₂, ({ txSample with writesStatus :=
          (8, .failure 0) :: txSample.writesStatus } :
            StorageTransaction).update_tx_status 8 (.success 1) =
          .ok (some (.failure 0), tx₂)) ∧
      (∀ r tx', txSample.update_tx_status 5 (.success 1) = .ok (r, tx') →
        r = txSample.getStatus 5) :=
  ⟨(update_tx_status_replace txSample 8 (.failure 0) (.success 1)).2.2 rfl,
   (update_tx_status_replace txSample 8 (.failure 0) (.success 1)).2.1
     none _ rfl,
   fun r tx' h =>
     ((update_tx_status_replace txSample 5 (.success 1) (.success 1)).1
       r tx' h).1⟩

/-- C5: when the `"total_tx_count"` statistic key is absent both from
the staged writes and from the base store, `get_tx_count()` succeeds
and returns 0. -/
theorem get_tx_count_defaults_to_zero (tx : StorageTransaction)
    (h1 : lookupA tx.writesStatistic TX_COUNT = none)
    (h2 : lookupA tx.base.statistic TX_COUNT = none) :
    tx.get_tx_count = .ok (0, tx) := by
  rw [StorageTransaction.get_tx_count]
  have : tx.txCountView = 0 := by
    rw [StorageTransaction.txCountView, StorageTransaction.getStatistic, h1,
      Store.getStatistic, h2]
    rfl
  rw [this]

/-- C5 witness: on the empty overlay the counter key is absent from both
layers and `get_tx_count` returns 0. -/
theorem get_tx_count_defaults_to_zero_witness :
    lookupA txEmpty.writesStatistic TX_COUNT = none ∧
      lookupA txEmpty.base.statistic TX_COUNT = none ∧
      txEmpty.get_tx_count = .ok (0, txEmpty) :=
  ⟨rfl, rfl, get_tx_count_defaults_to_zero txEmpty rfl rfl⟩

/-- C6: column catalog stability — variant-to-id and variant-to-name
maps are injective (every identifier maps to exactly one name),
`Column::COUNT` equals the number of catalog entries compiled into the
build (51 with the `fault-proving` feature, 27 without, with every
variant listed in the catalog enumeration), and identifiers of
conditionally-compiled variants never collide with identifiers of
unconditional ones. -/
theorem column_catalog_stability :
    (∀ c c' : Column, c.id = c'.id → c = c') ∧
    (∀ c c' : Column, c.name = c'.name → c = c') ∧
    (∀ c : Column, c ∈ allColumns) ∧
    Column.COUNT true = 51 ∧ Column.COUNT false = 27 ∧
    (∀ c c' : Column, c.faultProvingOnly = true →
      c'.faultProvingOnly = false → c.id ≠ c'.id) := by
  refine ⟨by decide, by decide, by decide, by decide, by decide, by decide⟩

/-- C6 witness: instantiating the catalog-stability theorem at concrete
variants — the unconditional `Metadata` and the conditional
`DaCompressionTemporalRegistryAddressV2` have distinct identifiers. -/
theorem column_catalog_stability_witness :
    Column.Metadata.id ≠ Column.DaCompressionTemporalRegistryAddressV2.id :=
  fun h =>
    column_catalog_stability.2.2.2.2.2
      Column.DaCompressionTemporalRegistryAddressV2 Column.Metadata
      rfl rfl h.symm

/-- C7: `record_tx_id_owner` stages an insert into the owned-transaction
index keyed by `(owner, block_height, tx_idx)` and succeeds for every
input — staging is an in-memory buffer update, so no error can arise
here and in particular an already-present key is no failure: the staged
value unconditionally overwrites the previous one in this overlay's
view. -/
theorem record_tx_id_owner_total (tx : StorageTransaction)
    (owner : Address) (block_height : BlockHeight) (tx_idx : Nat)
    (tx_id : Bytes32) :
    ∃ tx', tx.record_tx_id_owner owner block_height tx_idx tx_id =
        .ok ((), tx') ∧
      tx'.writesOwned =
        (⟨owner, block_height, tx_idx⟩, tx_id) :: tx.writesOwned ∧
      tx'.getOwned ⟨owner, block_height, tx_idx⟩ = some tx_id := by
  refine ⟨_, rfl, rfl, ?_⟩
  simp [StorageTransaction.getOwned, lookupA]

/-- C8: `get_tx_count()` never mutates state — it succeeds and returns
the overlay unchanged: the staged writes of every table and the base
store are exactly as they were before the call. -/
theorem get_tx_count_pure (tx : StorageTransaction) :
    tx.get_tx_count = .ok (tx.txCountView, tx) ∧
    (∀ n tx', tx.get_tx_count = .ok (n, tx') →
      tx'.writesOwned = tx.writesOwned ∧
      tx'.writesStatus = tx.writesStatus ∧
      tx'.writesStatistic = tx.writesStatistic ∧
      tx'.base = tx.base) := by
  refine ⟨rfl, fun n tx' h => ?_⟩
  rw [StorageTransaction.get_tx_count] at h
  simp only [Except.ok.injEq, Prod.mk.injEq] at h
  obtain ⟨-, htx⟩ := h
  subst htx
  exact ⟨rfl, rfl, rfl, rfl⟩

/-- C8 witness: reading the counter of the sample overlay returns its
visible count and the very same overlay state. -/
theorem get_tx_count_pure_witness :
    txSample.get_tx_count = .ok (txSample.txCountView, txSample) :=
  (get_tx_count_pure txSample).1

/-- C9: cross-table frame effect.  A successful `record_tx_id_owner`
leaves the status view and the counter view of the overlay unchanged;
a successful `increase_tx_count` leaves the owned-transaction view and
the status view unchanged. -/
theorem cross_table_frame (tx : StorageTransaction) (owner : Address)
    (block_height : BlockHeight) (tx_idx : Nat) (tx_id : Bytes32)
    (d : Nat) :
    (∀ u tx', tx.record_tx_id_owner owner block_height tx_idx tx_id =
        .ok (u, tx') →
      (∀ id, tx'.getStatus id = tx.getStatus id) ∧
      tx'.txCountView = tx.txCountView ∧
      (∀ key, tx'.getStatistic key = tx.getStatistic key)) ∧
    (∀ n tx', tx.increase_tx_count d = .ok (n, tx') →
      (∀ k, tx'.getOwned k = tx.getOwned k) ∧
      (∀ id, tx'.getStatus id = tx.getStatus id)) := by
  constructor
  · intro u tx' h
    rw [show tx.record_tx_id_owner owner block_height tx_idx tx_id =
      .ok ((), { tx with writesOwned :=
        (⟨owner, block_height, tx_idx⟩, tx_id) :: tx.writesOwned })
      from rfl] at h
    simp only [Except.ok.injEq, Prod.mk.injEq] at h
    obtain ⟨-, htx⟩ := h
    subst htx
    exact ⟨fun _ => rfl, rfl, fun _ => rfl⟩
  · intro n tx' h
    rw [increase_tx_count_eq] at h
    simp only [Except.ok.injEq, Prod.mk.injEq] at h
    obtain ⟨-, htx⟩ := h
    subst htx
    exact ⟨fun _ => rfl, fun _ => rfl⟩

/-- C9 witness: recording an owned-transaction entry on the sample
overlay leaves the visible counter unchanged. -/
theorem cross_table_frame_witness :
    ({ txSample with writesOwned :=
        (⟨1, 2, 3⟩, 9) :: txSample.writesOwned } :
      StorageTransaction).txCountView = txSample.txCountView :=
  ((cross_table_frame txSample 1 2 3 9 0).1 () _ rfl).2.1

/-- C10: composition of increments.  Two successive successful
`increase_tx_count` calls with deltas `a` and `b` leave the staged
count at `min (T + a + b) u64::MAX` in exact arithmetic — the same
final count a single call with delta `a + b` returns and stages, so
splitting an increment never changes the stored total. -/
theorem increase_tx_count_composes (tx : StorageTransaction) (a b : Nat) :
    ∀ n₁ tx₁, tx.increase_tx_count a = .ok (n₁, tx₁) →
    ∀ n₂ tx₂, tx₁.increase_tx_count b = .ok (n₂, tx₂) →
      n₂ = min (tx.txCountView + a + b) U64MAX ∧
      tx₂.txCountView = min (tx.txCountView + a + b) U64MAX ∧
      ∃ tx₃, tx.increase_tx_count (a + b) = .ok (n₂, tx₃) ∧
        tx₃.txCountView = tx₂.txCountView := by
  intro n₁ tx₁ h₁ n₂ tx₂ h₂
  rw [increase_tx_count_eq] at h₁
  simp only [Except.ok.injEq, Prod.mk.injEq] at h₁
  obtain ⟨-, htx₁⟩ := h₁
  subst htx₁
  rw [increase_tx_count_eq, txCountView_stage] at h₂
  simp only [Except.ok.injEq, Prod.mk.injEq] at h₂
  obtain ⟨hn₂, htx₂⟩ := h₂
  subst htx₂
  have harith : min (min (tx.txCountView + a) U64MAX + b) U64MAX =
      min (tx.txCountView + a + b) U64MAX := by omega
  refine ⟨by rw [← hn₂, harith], by rw [txCountView_stage, harith], ?_⟩
  refine ⟨{ tx with writesStatistic :=
      (TX_COUNT, min (tx.txCountView + (a + b)) U64MAX) ::
        tx.writesStatistic }, ?_, ?_⟩
  · rw [increase_tx_count_eq, ← hn₂]
    simp only [Except.ok.injEq, Prod.mk.injEq]
    exact ⟨by omega, trivial⟩
  · rw [txCountView_stage, txCountView_stage]
    omega

/-- C10 witness: on the sample overlay (visible count 9), incrementing
by 2 then 3 stages 14, and a single increment of 5 returns and stages
the same 14. -/
theorem increase_tx_count_composes_witness :
    (14 : Nat) = min (txSample.txCountView + 2 + 3) U64MAX ∧
      ({ txSample with writesStatistic :=
          (TX_COUNT, 14) :: (TX_COUNT, 11) :: txSample.writesStatistic } :
        StorageTransaction).txCountView =
        min (txSample.txCountView + 2 + 3) U64MAX ∧
      ∃ tx₃, txSample.increase_tx_count (2 + 3) = .ok (14, tx₃) ∧
        tx₃.txCountView =
          ({ txSample with writesStatistic :=
              (TX_COUNT, 14) :: (TX_COUNT, 11) :: txSample.writesStatistic } :
            StorageTransaction).txCountView :=
  increase_tx_count_composes txSample 2 3 11 _ rfl 14 _ rfl

end FuelGraphQLStorage
